import Mathlib

/-!
Shallow embedding of `grr/server/grr_response_server/databases/mysql_clients.py`
(class `MySQLDBClientMixin`): the MySQL-backed client store of GRR.

Modelling conventions:
* machine timestamps (MySQL `TIMESTAMP(6)` columns, `RDFDatetime` values) are
  `Nat` microseconds since the epoch;
* serialized payload blobs keep their domain values: serialization is an
  external opaque codec (`SerializeToBytes`/`FromSerializedBytes`), so the
  codec is modelled as the identity on the domain structures;
* every MySQL table is a list of rows in insertion order; `clients` is an
  association list keyed by the integer client id (the external
  `ClientIDToInt` codec is injective, so integer ids stand for client ids);
* `NOW(6)` is passed in as an explicit `now` argument;
* a statement that raises `MySQLdb.IntegrityError` is modelled by `Except`;
  the `WithTransaction` decorator (external unit-of-work executor) rolls the
  transaction back on an escaping exception, so an `.error` result carries no
  state: `runInTransaction` keeps the pre-call state in that case.
-/

abbrev ClientId := Nat
abbrev Timestamp := Nat
abbrev Blob := List Nat
abbrev Fsvi := List (String × String)

/-- Payload of one `client_startup_history` row (`rdf_client.StartupInfo`). -/
structure StartupInfo where
  boot_time : Nat := 0
  timestamp : Option Timestamp := none
deriving DecidableEq, Repr

/-- Payload of one `client_snapshot_history` row
(`rdf_objects.ClientSnapshot`), with the fields this file reads:
`client_id`, `timestamp`, the detachable `startup_info`, and the three
identity fields denormalized onto the `clients` row
(`GetGRRVersionString()`, `knowledge_base.os`, `Uname()`). -/
structure ClientSnapshot where
  client_id : ClientId
  timestamp : Option Timestamp := none
  startup_info : Option StartupInfo := none
  grr_version : String := ""
  os : String := ""
  uname : String := ""
deriving DecidableEq, Repr

/-- Payload of one `client_crash_history` row (`rdf_client.ClientCrash`). -/
structure CrashInfo where
  crash_message : String := ""
  timestamp : Option Timestamp := none
deriving DecidableEq, Repr

/-- Payload of one `client_stats` row (`rdf_client_stats.ClientStats`). -/
structure ClientStats where
  cpu_usage : Nat := 0
  timestamp : Option Timestamp := none
deriving DecidableEq, Repr

/-- One `rdf_objects.ClientLabel` value. -/
structure ClientLabel where
  name : String
  owner : String
deriving DecidableEq, Repr

/-- One row of the `clients` table (the Client Pointer Record).  All columns
other than `client_id` (the association-list key) are nullable and default
to NULL. -/
structure ClientRow where
  certificate : Option Blob := none
  first_seen : Option Timestamp := none
  last_ping : Option Timestamp := none
  last_clock : Option Timestamp := none
  last_ip : Option Blob := none
  last_foreman : Option Timestamp := none
  last_fleetspeak_validation_info : Option Fsvi := none
  last_snapshot_timestamp : Option Timestamp := none
  last_startup_timestamp : Option Timestamp := none
  last_crash_timestamp : Option Timestamp := none
  last_version_string : Option String := none
  last_platform : Option String := none
  last_platform_release : Option String := none
deriving DecidableEq, Repr

/-- One row of `client_snapshot_history` (PK `(client_id, timestamp)`). -/
structure SnapshotHistoryRow where
  client_id : ClientId
  timestamp : Timestamp
  client_snapshot : ClientSnapshot
deriving DecidableEq, Repr

/-- One row of `client_startup_history` (PK `(client_id, timestamp)`). -/
structure StartupHistoryRow where
  client_id : ClientId
  timestamp : Timestamp
  startup_info : StartupInfo
deriving DecidableEq, Repr

/-- One row of `client_crash_history` (PK `(client_id, timestamp)`). -/
structure CrashHistoryRow where
  client_id : ClientId
  timestamp : Timestamp
  crash_info : CrashInfo
deriving DecidableEq, Repr

/-- One row of `client_stats` (PK `(client_id, timestamp)`; an insert for an
existing key overwrites the payload via `ON DUPLICATE KEY UPDATE`). -/
structure StatsRow where
  client_id : ClientId
  timestamp : Timestamp
  payload : ClientStats
deriving DecidableEq, Repr

/-- One row of `client_keywords`. -/
structure KeywordRow where
  client_id : ClientId
  keyword_hash : String
  keyword : String
  timestamp : Timestamp
deriving DecidableEq, Repr

/-- One row of `client_labels` (unique on the full tuple). -/
structure LabelRow where
  client_id : ClientId
  owner_username_hash : String
  owner_username : String
  label : String
deriving DecidableEq, Repr

/-- The state of all client-related tables. -/
structure DBState where
  clients : List (ClientId × ClientRow) := []
  client_snapshot_history : List SnapshotHistoryRow := []
  client_startup_history : List StartupHistoryRow := []
  client_crash_history : List CrashHistoryRow := []
  client_stats : List StatsRow := []
  client_keywords : List KeywordRow := []
  client_labels : List LabelRow := []
deriving DecidableEq, Repr

/-- Mirror of `mysql_utils.Hash`: an external deterministic hash of a string,
assumed injective by the schema design; modelled as the identity codec. -/
def mysqlHash (s : String) : String := s

/-- Looks up the `clients` row with the given id (`SELECT ... WHERE
client_id = %s` against the primary key). -/
def lookupClient : List (ClientId × ClientRow) → ClientId → Option ClientRow
  | [], _ => none
  | (c, r) :: rest, cid => if c = cid then some r else lookupClient rest cid

/-- Applies `UPDATE clients SET ... WHERE client_id = %s`: rewrites every row
whose key matches (at most one, for a well-formed table). -/
def updateClient : List (ClientId × ClientRow) → ClientId →
    (ClientRow → ClientRow) → List (ClientId × ClientRow)
  | [], _, _ => []
  | (c, r) :: rest, cid, f =>
    (if c = cid then (c, f r) else (c, r)) :: updateClient rest cid f

/-- Applies `DELETE FROM clients WHERE client_id = %s`. -/
def removeClient (rows : List (ClientId × ClientRow)) (cid : ClientId) :
    List (ClientId × ClientRow) :=
  rows.filter (fun p => p.1 ≠ cid)

/-- Finds the `client_snapshot_history` row with the given primary key. -/
def findSnapshotRow (hist : List SnapshotHistoryRow) (cid : ClientId)
    (ts : Timestamp) : Option SnapshotHistoryRow :=
  hist.find? (fun r => r.client_id = cid ∧ r.timestamp = ts)

/-- Finds the `client_startup_history` row with the given primary key. -/
def findStartupRow (hist : List StartupHistoryRow) (cid : ClientId)
    (ts : Timestamp) : Option StartupHistoryRow :=
  hist.find? (fun r => r.client_id = cid ∧ r.timestamp = ts)

/-- Finds the `client_crash_history` row with the given primary key. -/
def findCrashRow (hist : List CrashHistoryRow) (cid : ClientId)
    (ts : Timestamp) : Option CrashHistoryRow :=
  hist.find? (fun r => r.client_id = cid ∧ r.timestamp = ts)

/-- Errors escaping a database call. `integrityError true` is a raw
`MySQLdb.IntegrityError` with code `NO_REFERENCED_ROW_2` (a foreign-key
violation), `integrityError false` any other integrity error (duplicate
key); `pyError` is an ordinary Python exception (no database error). -/
inductive DBError where
  | unknownClient (cid : ClientId)
  | atLeastOneUnknownClient (cids : List ClientId)
  | integrityError (fk : Bool)
  | pyError (msg : String)
deriving DecidableEq, Repr

deriving instance DecidableEq for Except

/-- The external `WithTransaction` unit-of-work executor: on an escaping
exception the transaction is rolled back, so the state is unchanged. -/
def runInTransaction (f : DBState → Except DBError DBState) (s : DBState) :
    DBState :=
  match f s with
  | .ok s2 => s2
  | .error _ => s

/-- Arguments of `WriteClientMetadata`.  Fields the caller does not pass keep
their `None` Python default.  The Python code guards each field with `if
field:`/`if field is not None:`; the RDF wrapper objects carry no falsiness
of their own, so both guards are modelled as presence of the optional. -/
structure MetadataArgs where
  certificate : Option Blob := none
  first_seen : Option Timestamp := none
  last_ping : Option Timestamp := none
  last_clock : Option Timestamp := none
  last_ip : Option Blob := none
  last_foreman : Option Timestamp := none
  fleetspeak_validation_info : Option Fsvi := none
deriving DecidableEq, Repr

/-- The column assignments of the `WriteClientMetadata` upsert: only columns
present in `values` appear in the `INSERT ... ON DUPLICATE KEY UPDATE`
statement, so absent optional fields are not assigned at all.
`last_fleetspeak_validation_info` is always in `values`: it is set to the
serialized mapping when truthy (non-empty) and explicitly to NULL
otherwise. -/
def applyMetadataValues (a : MetadataArgs) (r : ClientRow) : ClientRow :=
  { r with
    certificate := match a.certificate with
      | some c => some c
      | none => r.certificate,
    first_seen := match a.first_seen with
      | some t => some t
      | none => r.first_seen,
    last_ping := match a.last_ping with
      | some t => some t
      | none => r.last_ping,
    last_clock := match a.last_clock with
      | some t => some t
      | none => r.last_clock,
    last_ip := match a.last_ip with
      | some b => some b
      | none => r.last_ip,
    last_foreman := match a.last_foreman with
      | some t => some t
      | none => r.last_foreman,
    last_fleetspeak_validation_info :=
      match a.fleetspeak_validation_info with
      | some l => if l = [] then none else some l
      | none => none }

/-- Embedding of `WriteClientMetadata`: an upsert of the Pointer Record.  If
the row exists, the `ON DUPLICATE KEY UPDATE` arm assigns exactly the
supplied columns; otherwise a fresh row (all other columns NULL) is
inserted. -/
def writeClientMetadata (s : DBState) (cid : ClientId) (a : MetadataArgs) :
    DBState :=
  match lookupClient s.clients cid with
  | some _ => { s with clients := updateClient s.clients cid (applyMetadataValues a) }
  | none => { s with clients := s.clients ++ [(cid, applyMetadataValues a {})] }

/-- The `rdf_objects.ClientMetadata` record as assembled by the readers. -/
structure ClientMetadata where
  certificate : Option Blob := none
  first_seen : Option Timestamp := none
  ping : Option Timestamp := none
  clock : Option Timestamp := none
  ip : Option Blob := none
  last_foreman_time : Option Timestamp := none
  startup_info_timestamp : Option Timestamp := none
  last_crash_timestamp : Option Timestamp := none
  last_fleetspeak_validation_info : Option Fsvi := none
deriving DecidableEq, Repr

/-- Builds the metadata record of one `clients` row exactly as the
`MultiReadClientMetadata` loop does; `if fsvi:` is bytes truthiness, so an
empty serialized mapping is not deserialized. -/
def mkClientMetadata (r : ClientRow) : ClientMetadata :=
  let m : ClientMetadata :=
    { certificate := r.certificate
      first_seen := r.first_seen
      ping := r.last_ping
      clock := r.last_clock
      ip := r.last_ip
      last_foreman_time := r.last_foreman
      startup_info_timestamp := r.last_startup_timestamp
      last_crash_timestamp := r.last_crash_timestamp }
  match r.last_fleetspeak_validation_info with
  | some l => if l = [] then m else { m with last_fleetspeak_validation_info := some l }
  | none => m

/-- Embedding of `MultiReadClientMetadata`: `SELECT ... FROM clients WHERE
client_id IN (...)` — only ids with a `clients` row produce an entry in the
returned mapping. -/
def multiReadClientMetadata (s : DBState) (client_ids : List ClientId) :
    List (ClientId × ClientMetadata) :=
  client_ids.filterMap (fun cid =>
    (lookupClient s.clients cid).map (fun r => (cid, mkClientMetadata r)))

/-- Embedding of `INSERT INTO client_snapshot_history`: raises the
foreign-key integrity error when the client has no Pointer Record, the
duplicate-key integrity error when the `(client_id, timestamp)` primary key
is already present. -/
def insertSnapshotHistory (s : DBState) (cid : ClientId) (ts : Timestamp)
    (snap : ClientSnapshot) : Except DBError DBState :=
  if (lookupClient s.clients cid).isNone then .error (.integrityError true)
  else if (findSnapshotRow s.client_snapshot_history cid ts).isSome then
    .error (.integrityError false)
  else .ok { s with client_snapshot_history :=
    s.client_snapshot_history ++ [⟨cid, ts, snap⟩] }

/-- Embedding of `INSERT INTO client_startup_history`. -/
def insertStartupHistory (s : DBState) (cid : ClientId) (ts : Timestamp)
    (su : StartupInfo) : Except DBError DBState :=
  if (lookupClient s.clients cid).isNone then .error (.integrityError true)
  else if (findStartupRow s.client_startup_history cid ts).isSome then
    .error (.integrityError false)
  else .ok { s with client_startup_history :=
    s.client_startup_history ++ [⟨cid, ts, su⟩] }

/-- Embedding of `INSERT INTO client_crash_history`. -/
def insertCrashHistory (s : DBState) (cid : ClientId) (ts : Timestamp)
    (ci : CrashInfo) : Except DBError DBState :=
  if (lookupClient s.clients cid).isNone then .error (.integrityError true)
  else if (findCrashRow s.client_crash_history cid ts).isSome then
    .error (.integrityError false)
  else .ok { s with client_crash_history :=
    s.client_crash_history ++ [⟨cid, ts, ci⟩] }

/-- The error translation of `WriteClientSnapshot` and `WriteClientStats`:
`IntegrityError` with code `NO_REFERENCED_ROW_2` becomes `UnknownClient`,
any other integrity error is re-raised unchanged. -/
def translateFkError (cid : ClientId) : DBError → DBError
  | .integrityError true => .unknownClient cid
  | e => e

/-- Embedding of `WriteClientSnapshot`.  The snapshot's `startup_info` is
detached before the inserts so the two payloads are serialized separately,
and restored in a `finally:` block; the second component of the result is
the caller's snapshot object after the call.  Statement order follows the
code: snapshot insert, startup serialization (`AttributeError` when the
snapshot carries none), startup insert, then the unconditional pointer and
denormalized-field update. -/
def writeClientSnapshot (s : DBState) (now : Timestamp)
    (snapshot : ClientSnapshot) : Except DBError DBState × ClientSnapshot :=
  let startup_info := snapshot.startup_info
  let snap := { snapshot with startup_info := none }
  let res : Except DBError DBState :=
    match insertSnapshotHistory s snap.client_id now snap with
    | .error e => .error (translateFkError snap.client_id e)
    | .ok s1 =>
      match startup_info with
      | none => .error (.pyError "AttributeError")
      | some su =>
        match insertStartupHistory s1 snap.client_id now su with
        | .error e => .error (translateFkError snap.client_id e)
        | .ok s2 =>
          .ok { s2 with clients :=
            updateClient s2.clients snap.client_id (fun r =>
              { r with
                last_snapshot_timestamp := some now,
                last_startup_timestamp := some now,
                last_version_string := some snapshot.grr_version,
                last_platform := some snapshot.os,
                last_platform_release := some snapshot.uname }) }
  (res, { snap with startup_info := startup_info })

/-- Embedding of `MultiReadClientSnapshot`.  The result dictionary starts as
`None` for every requested id; the query joins `clients` to both history
streams on the two pointer columns, so a row is produced (and the entry
overwritten) only when both pointers are non-NULL and both history rows
exist. -/
def multiReadClientSnapshot (s : DBState) (client_ids : List ClientId) :
    List (ClientId × Option ClientSnapshot) :=
  client_ids.map (fun cid => (cid,
    match lookupClient s.clients cid with
    | none => none
    | some row =>
      match row.last_snapshot_timestamp, row.last_startup_timestamp with
      | some hts, some sts =>
        match findSnapshotRow s.client_snapshot_history cid hts,
              findStartupRow s.client_startup_history cid sts with
        | some h, some su => some { h.client_snapshot with
            startup_info := some su.startup_info
            timestamp := some hts }
        | _, _ => none
      | _, _ => none))

/-- The conditional pointer update of `WriteClientSnapshotHistory`:
`SET pointer = latest WHERE pointer IS NULL OR pointer < latest` — the
monotonicity guard. -/
def guardAdvance (old : Option Timestamp) (m : Timestamp) : Option Timestamp :=
  match old with
  | none => some m
  | some o => if o < m then some m else some o

/-- Mirror of `max(client.timestamp for client in clients)` followed by
`RDFDatetimeToTimestamp`: defined when every snapshot carries a timestamp
(a missing one raises before any statement runs). -/
def maxBatchTimestamp (batch : List ClientSnapshot) : Option Timestamp :=
  if batch.all (fun c => c.timestamp.isSome) then
    some ((batch.filterMap (fun c => c.timestamp)).foldl max 0)
  else none

/-- The per-snapshot loop of `WriteClientSnapshotHistory`: for each snapshot,
detach its startup info, insert the snapshot row and the startup row at the
snapshot's own timestamp.  Every insert uses the *first* snapshot's
client id (`base_params`). -/
def insertSnapshotPairs (s : DBState) (cid : ClientId) :
    List ClientSnapshot → Except DBError DBState
  | [] => .ok s
  | c :: rest =>
    match c.timestamp with
    | none => .error (.pyError "TypeError")
    | some ts =>
      match c.startup_info with
      | none => .error (.pyError "AttributeError")
      | some su =>
        match insertSnapshotHistory s cid ts { c with startup_info := none } with
        | .error e => .error e
        | .ok s1 =>
          match insertStartupHistory s1 cid ts su with
          | .error e => .error e
          | .ok s2 => insertSnapshotPairs s2 cid rest

/-- Embedding of `WriteClientSnapshotHistory` (the bulk writer): takes the
client id from `clients[0]` (empty batch: `IndexError`), computes the
maximum timestamp, writes every (snapshot, startup) pair, then advances
`last_snapshot_timestamp` and `last_startup_timestamp` with the
monotonicity guard.  Any `IntegrityError` in the `try` block is translated
to `UnknownClient`. -/
def writeClientSnapshotHistory (s : DBState) (batch : List ClientSnapshot) :
    Except DBError DBState :=
  match batch.head? with
  | none => .error (.pyError "IndexError")
  | some c0 =>
    match maxBatchTimestamp batch with
    | none => .error (.pyError "TypeError")
    | some m =>
      match insertSnapshotPairs s c0.client_id batch with
      | .error (.integrityError _) => .error (.unknownClient c0.client_id)
      | .error e => .error e
      | .ok s1 =>
        .ok { s1 with clients :=
          updateClient s1.clients c0.client_id (fun r =>
            { r with
              last_snapshot_timestamp := guardAdvance r.last_snapshot_timestamp m,
              last_startup_timestamp := guardAdvance r.last_startup_timestamp m }) }

/-- Embedding of `WriteClientStartupInfo`: appends to the startup stream at
`NOW(6)` and advances the pointer unconditionally.  The `except` clause
catches *every* `IntegrityError` as `UnknownClient`. -/
def writeClientStartupInfo (s : DBState) (now : Timestamp) (cid : ClientId)
    (startup_info : StartupInfo) : Except DBError DBState :=
  match insertStartupHistory s cid now startup_info with
  | .error _ => .error (.unknownClient cid)
  | .ok s1 =>
    .ok { s1 with clients := updateClient s1.clients cid (fun r =>
      { r with last_startup_timestamp := some now }) }

/-- Embedding of `ReadClientStartupInfo`: the join of `clients` with
`client_startup_history` on the startup pointer; `None` when the client
row is missing, the pointer is NULL, or no history row matches it. -/
def readClientStartupInfo (s : DBState) (cid : ClientId) :
    Option StartupInfo :=
  match lookupClient s.clients cid with
  | none => none
  | some row =>
    match row.last_startup_timestamp with
    | none => none
    | some ts =>
      (findStartupRow s.client_startup_history cid ts).map
        (fun r => { r.startup_info with timestamp := some ts })

/-- Embedding of `WriteClientCrashInfo`: appends to the crash stream at
`NOW(6)` and advances the pointer unconditionally; every `IntegrityError`
becomes `UnknownClient`. -/
def writeClientCrashInfo (s : DBState) (now : Timestamp) (cid : ClientId)
    (crash_info : CrashInfo) : Except DBError DBState :=
  match insertCrashHistory s cid now crash_info with
  | .error _ => .error (.unknownClient cid)
  | .ok s1 =>
    .ok { s1 with clients := updateClient s1.clients cid (fun r =>
      { r with last_crash_timestamp := some now }) }

/-- Embedding of `ReadClientCrashInfo`: the join of `clients` with
`client_crash_history` on the crash pointer. -/
def readClientCrashInfo (s : DBState) (cid : ClientId) : Option CrashInfo :=
  match lookupClient s.clients cid with
  | none => none
  | some row =>
    match row.last_crash_timestamp with
    | none => none
    | some ts =>
      (findCrashRow s.client_crash_history cid ts).map
        (fun r => { r.crash_info with timestamp := some ts })

/-- Embedding of `WriteClientStats`: assigns `NOW` to a missing payload
timestamp, then upserts into `client_stats` (`ON DUPLICATE KEY UPDATE
payload`); a foreign-key violation is translated to `UnknownClient`. -/
def writeClientStats (s : DBState) (now : Timestamp) (cid : ClientId)
    (stats : ClientStats) : Except DBError DBState :=
  let stats := if stats.timestamp.isNone then { stats with timestamp := some now } else stats
  let ts := stats.timestamp.getD now
  if (lookupClient s.clients cid).isNone then .error (.unknownClient cid)
  else if (s.client_stats.any (fun r => r.client_id = cid ∧ r.timestamp = ts)) then
    .ok { s with client_stats := s.client_stats.map (fun r =>
      if r.client_id = cid ∧ r.timestamp = ts then { r with payload := stats } else r) }
  else
    .ok { s with client_stats := s.client_stats ++ [⟨cid, ts, stats⟩] }

/-- The pointer columns set to NULL by the `UPDATE` statement of
`DeleteClient`, transcribed from its SQL text. -/
def deleteClientClearedPointerColumns : List String :=
  ["last_crash_timestamp", "last_snapshot_timestamp", "last_startup_timestamp"]

/-- Embedding of `DeleteClient`: raises `UnknownClient` when no row exists,
otherwise sets the three pointer columns to NULL and deletes the `clients`
row.  History and index rows are left untouched. -/
def deleteClient (s : DBState) (cid : ClientId) : Except DBError DBState :=
  if (lookupClient s.clients cid).isNone then .error (.unknownClient cid)
  else
    let cleared := updateClient s.clients cid (fun r =>
      { r with
        last_crash_timestamp := none,
        last_snapshot_timestamp := none,
        last_startup_timestamp := none })
    .ok { s with clients := removeClient cleared cid }

/-- Embedding of `MultiAddClientKeywords`: early return on an empty id or
keyword collection; otherwise one multi-row upsert of the cross-product
(`ON DUPLICATE KEY UPDATE timestamp = NOW(6)`), whose `IntegrityError`
(the foreign-key violation on any unknown client) is raised as
`AtLeastOneUnknownClient` with nothing applied. -/
def multiAddClientKeywords (s : DBState) (now : Timestamp)
    (client_ids : List ClientId) (keywords : List String) :
    Except DBError DBState :=
  if client_ids = [] ∨ keywords = [] then .ok s
  else if client_ids.all (fun cid => (lookupClient s.clients cid).isSome) then
    let pairs := client_ids.flatMap (fun cid => keywords.map (fun kw => (cid, kw)))
    .ok { s with client_keywords :=
      pairs.foldl (fun rows p =>
        if rows.any (fun r => r.client_id = p.1 ∧ r.keyword_hash = mysqlHash p.2) then
          rows.map (fun r =>
            if r.client_id = p.1 ∧ r.keyword_hash = mysqlHash p.2 then
              { r with timestamp := now }
            else r)
        else rows ++ [⟨p.1, mysqlHash p.2, p.2, now⟩]) s.client_keywords }
  else .error (.atLeastOneUnknownClient client_ids)

/-- Embedding of `MultiAddClientLabels`: early return on an empty id or
label collection; otherwise one `INSERT IGNORE` of the cross-product
(idempotent on existing tuples), with the foreign-key violation raised as
`AtLeastOneUnknownClient`. -/
def multiAddClientLabels (s : DBState) (owner : String)
    (client_ids : List ClientId) (labels : List String) :
    Except DBError DBState :=
  if client_ids = [] ∨ labels = [] then .ok s
  else if client_ids.all (fun cid => (lookupClient s.clients cid).isSome) then
    let tuples := client_ids.flatMap (fun cid =>
      labels.map (fun l => LabelRow.mk cid (mysqlHash owner) owner l))
    .ok { s with client_labels :=
      tuples.foldl (fun rows t =>
        if rows.any (fun r => r = t) then rows else rows ++ [t]) s.client_labels }
  else .error (.atLeastOneUnknownClient client_ids)

/-- Embedding of the `DELETE FROM client_stats WHERE timestamp <
FROM_UNIXTIME(%s) LIMIT %s` statement of `_DeleteClientStatsBatch`: removes
up to `limit` rows older than the cutoff and reports `cursor.rowcount`. -/
def deleteStatsUpTo : List StatsRow → Timestamp → Nat → Nat × List StatsRow
  | rows, _, 0 => (0, rows)
  | [], _, _ => (0, [])
  | r :: rs, cutoff, Nat.succ k =>
    if r.timestamp < cutoff then
      let p := deleteStatsUpTo rs cutoff k
      (p.1 + 1, p.2)
    else
      let p := deleteStatsUpTo rs cutoff (Nat.succ k)
      (p.1, r :: p.2)

/-- The number of `client_stats` rows older than the cutoff. -/
def eligibleStatsCount (rows : List StatsRow) (cutoff : Timestamp) : Nat :=
  (rows.filter (fun r => r.timestamp < cutoff)).length

theorem deleteStatsUpTo_length (rows : List StatsRow) (cutoff : Timestamp)
    (k : Nat) :
    (deleteStatsUpTo rows cutoff k).1 + (deleteStatsUpTo rows cutoff k).2.length
      = rows.length := by
  induction rows generalizing k with
  | nil => cases k <;> simp [deleteStatsUpTo]
  | cons r rs ih =>
    cases k with
    | zero => simp [deleteStatsUpTo]
    | succ k =>
      by_cases h : r.timestamp < cutoff
      · have hk := ih k
        simp [deleteStatsUpTo, h]
        omega
      · have hk := ih (k + 1)
        simp [deleteStatsUpTo, h]
        omega

/-- Embedding of `_DeleteClientStatsBatch`: one transaction deleting one
batch, returning the deleted-row count. -/
def deleteClientStatsBatch (s : DBState) (cutoff : Timestamp)
    (batch_size : Nat) : Nat × DBState :=
  let p := deleteStatsUpTo s.client_stats cutoff batch_size
  (p.1, { s with client_stats := p.2 })

/-- The generator loop of `DeleteOldClientStats` at the level of the
`client_stats` row list: run one batch per iteration, yield its count when
positive, stop at the first zero-count batch without yielding it. -/
def deleteOldClientStatsLoop (rows : List StatsRow) (cutoff : Timestamp)
    (batch_size : Nat) : List Nat :=
  if h : 0 < (deleteStatsUpTo rows cutoff batch_size).1 then
    (deleteStatsUpTo rows cutoff batch_size).1 ::
      deleteOldClientStatsLoop (deleteStatsUpTo rows cutoff batch_size).2
        cutoff batch_size
  else []
termination_by rows.length
decreasing_by
  have hlen := deleteStatsUpTo_length rows cutoff batch_size
  omega

/-- Embedding of `DeleteOldClientStats`: the full lazy sequence of per-batch
deleted-row counts (each batch its own transaction). -/
def deleteOldClientStats (s : DBState) (cutoff : Timestamp)
    (batch_size : Nat) : List Nat :=
  deleteOldClientStatsLoop s.client_stats cutoff batch_size

/-- The statistic column passed to `_CountClientStatisticByLabel`. -/
inductive StatColumn where
  | last_version_string
  | last_platform
  | last_platform_release
deriving DecidableEq, Repr

/-- Reads the statistic column of a `clients` row. -/
def statValue : StatColumn → ClientRow → Option String
  | .last_version_string, r => r.last_version_string
  | .last_platform, r => r.last_platform
  | .last_platform_release, r => r.last_platform_release

/-- Microseconds in one day (`rdfvalue.Duration.From(n, rdfvalue.DAYS)`). -/
def microsPerDay : Nat := 86400000000

/-- The per-bucket cutoff: `now - rdfvalue.Duration.From(day_bucket, DAYS)`. -/
def timestampBucket (now : Timestamp) (day_bucket : Nat) : Timestamp :=
  now - day_bucket * microsPerDay

/-- The SQL cast `CAST(c.last_ping > FROM_UNIXTIME(cutoff) AS UNSIGNED)`:
one when `last_ping` is strictly after the cutoff, zero otherwise. -/
def pingActiveCast (ping cutoff : Timestamp) : Nat :=
  if cutoff < ping then 1 else 0

/-- One row of the inner derived table `j` of either
`_CountClientStatisticByLabel` query: the statistic value, the label
(`none` in the fleet-wide total query, which has no label column), and the
client's non-NULL `last_ping`. -/
structure StatJoinRow where
  stat : Option String
  label : Option String
  ping : Timestamp
deriving DecidableEq, Repr

/-- The inner derived table of the per-label query: clients with a non-NULL
`last_ping` joined to their labels owned by user `GRR`. -/
def grrStatLabelRows (s : DBState) (col : StatColumn) : List StatJoinRow :=
  s.clients.flatMap (fun cr =>
    match cr.2.last_ping with
    | none => []
    | some p =>
      (s.client_labels.filter (fun l =>
        l.client_id = cr.1 ∧ l.owner_username = "GRR")).map
        (fun l => ⟨statValue col cr.2, some l.label, p⟩))

/-- The inner derived table of the fleet-wide total query: every client with
a non-NULL `last_ping`, labels ignored. -/
def statTotalRows (s : DBState) (col : StatColumn) : List StatJoinRow :=
  s.clients.filterMap (fun cr =>
    cr.2.last_ping.map (fun p => ⟨statValue col cr.2, none, p⟩))

/-- The outer `SELECT ... CAST(SUM(...) AS UNSIGNED) ... GROUP BY` of either
query: for the group of rows with this statistic value and label, the sum
of the active casts for the bucket with this cutoff. -/
def sumActives (rows : List StatJoinRow) (v : Option String)
    (lbl : Option String) (cutoff : Timestamp) : Nat :=
  ((rows.filter (fun r => r.stat = v ∧ r.label = lbl)).map
    (fun r => pingActiveCast r.ping cutoff)).sum

/-- The per-label cell of `_CountClientStatisticByLabel` for one statistic
value, label and day bucket (the builder skips `num_actives <= 0`, so a
zero here means the cell is omitted from the result). -/
def countClientStatisticByLabelCell (s : DBState) (col : StatColumn)
    (now : Timestamp) (day_bucket : Nat) (v : Option String) (lbl : String) :
    Nat :=
  sumActives (grrStatLabelRows s col) v (some lbl)
    (timestampBucket now day_bucket)

/-- The fleet-wide total cell of `_CountClientStatisticByLabel` for one
statistic value and day bucket. -/
def countClientStatisticTotalCell (s : DBState) (col : StatColumn)
    (now : Timestamp) (day_bucket : Nat) (v : Option String) : Nat :=
  sumActives (statTotalRows s col) v none (timestampBucket now day_bucket)

/-- `CountClientVersionStringsByLabel` fixes the statistic column to
`last_version_string`; total cell of its result. -/
def countClientVersionStringsByLabelTotalCell (s : DBState) (now : Timestamp)
    (day_bucket : Nat) (v : Option String) : Nat :=
  countClientStatisticTotalCell s .last_version_string now day_bucket v

/-- `CountClientPlatformsByLabel` fixes the statistic column to
`last_platform`; total cell of its result. -/
def countClientPlatformsByLabelTotalCell (s : DBState) (now : Timestamp)
    (day_bucket : Nat) (v : Option String) : Nat :=
  countClientStatisticTotalCell s .last_platform now day_bucket v

/-- `CountClientPlatformReleasesByLabel` fixes the statistic column to
`last_platform_release`; total cell of its result. -/
def countClientPlatformReleasesByLabelTotalCell (s : DBState)
    (now : Timestamp) (day_bucket : Nat) (v : Option String) : Nat :=
  countClientStatisticTotalCell s .last_platform_release now day_bucket v

/-- Modelled from the spec (for comparison with the code): the spec's
activity predicate counts a client "whose `last_ping` is at or after that
cutoff", i.e. one when `cutoff ≤ ping`. -/
def specPingActiveCast (ping cutoff : Timestamp) : Nat :=
  if cutoff ≤ ping then 1 else 0

/-- Modelled from the spec (for comparison with the code): the fleet-wide
total cell under the spec's at-or-after activity predicate. -/
def specCountClientStatisticTotalCell (s : DBState) (col : StatColumn)
    (now : Timestamp) (day_bucket : Nat) (v : Option String) : Nat :=
  (((statTotalRows s col).filter (fun r => r.stat = v ∧ r.label = none)).map
    (fun r => specPingActiveCast r.ping (timestampBucket now day_bucket))).sum

/-- One row of the `MultiReadClientFullInfo` query result, in the order the
consumer unpacks it.  The label columns come from a LEFT JOIN, so both are
NULL for a client without labels. -/
structure FullInfoRow where
  cid : ClientId
  crt : Option Blob := none
  ip : Option Blob := none
  ping : Option Timestamp := none
  clk : Option Timestamp := none
  foreman : Option Timestamp := none
  first : Option Timestamp := none
  last_client_ts : Option Timestamp := none
  last_crash_ts : Option Timestamp := none
  last_startup_ts : Option Timestamp := none
  client_obj : Option ClientSnapshot := none
  client_startup_obj : Option StartupInfo := none
  last_startup_obj : Option StartupInfo := none
  last_rrg_startup_obj : Option Blob := none
  label_owner : Option String := none
  label_name : Option String := none
deriving DecidableEq, Repr

/-- The `rdf_objects.ClientFullInfo` record. -/
structure ClientFullInfo where
  metadata : ClientMetadata
  labels : List ClientLabel
  last_snapshot : ClientSnapshot
  last_startup_info : Option StartupInfo
  last_rrg_startup : Option Blob
deriving DecidableEq, Repr

/-- Python truthiness of a nullable string column: `None` and the empty
string are falsy. -/
def truthyOptStr : Option String → Bool
  | none => false
  | some v => v ≠ ""

/-- The label carried by one result row, when `label_owner and label_name`
is truthy: `ClientLabel(name=label_name, owner=label_owner)`. -/
def rowLabel (r : FullInfoRow) : Option ClientLabel :=
  if truthyOptStr r.label_owner && truthyOptStr r.label_name then
    some ⟨r.label_name.getD "", r.label_owner.getD ""⟩
  else none

/-- The `if label_owner and label_name:` append of the consumer loop. -/
def addLabelRow (info : ClientFullInfo) (r : FullInfoRow) : ClientFullInfo :=
  match rowLabel r with
  | some l => { info with labels := info.labels ++ [l] }
  | none => info

/-- Builds the fresh `ClientFullInfo` of the first row of a client group (the
`cid != prev_cid` branch), before any label is appended.  When
`client_obj` is NULL the snapshot is the empty shell carrying only the
client id; otherwise the issuing query guarantees `client_startup_obj` is
the paired startup row, mapped over here. -/
def mkFullInfo (r : FullInfoRow) : ClientFullInfo :=
  let metadata : ClientMetadata :=
    { certificate := r.crt
      first_seen := r.first
      ping := r.ping
      clock := r.clk
      ip := r.ip
      last_foreman_time := r.foreman
      startup_info_timestamp := r.last_startup_ts
      last_crash_timestamp := r.last_crash_ts }
  let l_snapshot : ClientSnapshot :=
    match r.client_obj with
    | some snap =>
      { snap with
        timestamp := r.last_client_ts,
        startup_info := r.client_startup_obj.map (fun su =>
          { su with timestamp := r.last_client_ts }) }
    | none => { client_id := r.cid }
  { metadata := metadata
    labels := []
    last_snapshot := l_snapshot
    last_startup_info := r.last_startup_obj.map (fun su =>
      { su with timestamp := r.last_startup_ts })
    last_rrg_startup := r.last_rrg_startup_obj }

/-- The accumulate-and-flush loop of `_ResponseToClientsFullInfo`: the
accumulator holds `(prev_cid, c_full_info)` once the first row has been
seen; a row with a new client id flushes the completed record, and the
last record is flushed after the final row. -/
def fullInfoGo : Option (ClientId × ClientFullInfo) → List FullInfoRow →
    List (ClientId × ClientFullInfo)
  | none, [] => []
  | some p, [] => [p]
  | none, r :: rs => fullInfoGo (some (r.cid, addLabelRow (mkFullInfo r) r)) rs
  | some (pcid, info), r :: rs =>
    if r.cid = pcid then fullInfoGo (some (pcid, addLabelRow info r)) rs
    else (pcid, info) :: fullInfoGo (some (r.cid, addLabelRow (mkFullInfo r) r)) rs

/-- Embedding of `_ResponseToClientsFullInfo` (the grouping consumer used by
`MultiReadClientFullInfo`). -/
def responseToClientsFullInfo (response : List FullInfoRow) :
    List (ClientId × ClientFullInfo) :=
  fullInfoGo none response

/-- The full-info record a group of rows of one client produces: the first
row builds the record (and contributes its own label), the remaining rows
only append labels. -/
def groupFullInfo : List FullInfoRow → ClientFullInfo
  | [] => mkFullInfo { cid := 0 }
  | r :: rest => rest.foldl addLabelRow (addLabelRow (mkFullInfo r) r)

/-- The sequence of batch counts as a function of the number `n` of eligible
rows and the batch size `b`: each loop iteration deletes `min b n` rows and
stops at the first zero count. -/
def purgeCounts (n b : Nat) : List Nat :=
  if h : 0 < min b n then min b n :: purgeCounts (n - b) b else []
termination_by n
decreasing_by
  have hb := Nat.min_le_left b n
  have hn := Nat.min_le_right b n
  omega

/-- A `client_stats` table with five rows older than cutoff 100 (the worked
example of the purge claim). -/
def c8ExampleState : DBState :=
  { client_stats := [⟨1, 1, {}⟩, ⟨1, 2, {}⟩, ⟨1, 3, {}⟩, ⟨1, 4, {}⟩,
      ⟨1, 5, {}⟩] }

theorem lookupClient_updateClient (rows : List (ClientId × ClientRow))
    (cid : ClientId) (f : ClientRow → ClientRow) :
    lookupClient (updateClient rows cid f) cid
      = (lookupClient rows cid).map f := by
  induction rows with
  | nil => rfl
  | cons p rest ih =>
    obtain ⟨c, r⟩ := p
    by_cases h : c = cid
    · subst h
      simp only [updateClient, if_true, eq_self_iff_true]
      simp [lookupClient]
    · simp only [updateClient]
      rw [if_neg h]
      simp [lookupClient, h]
      exact ih

theorem lookupClient_removeClient (rows : List (ClientId × ClientRow))
    (cid : ClientId) :
    lookupClient (removeClient rows cid) cid = none := by
  induction rows with
  | nil => rfl
  | cons p rest ih =>
    obtain ⟨c, r⟩ := p
    by_cases h : c = cid
    · simpa [removeClient, h] using ih
    · simpa [removeClient, lookupClient, h] using ih

/-- C10: For every call to WriteClientSnapshot, the caller's snapshot object
is observationally unchanged after the call returns or raises: the
`startup_info` field detached for separate serialization is always restored
by the `finally:` block, on the success path and on every error path. -/
theorem writeClientSnapshot_restores_startup_info (s : DBState)
    (now : Timestamp) (snapshot : ClientSnapshot) :
    (writeClientSnapshot s now snapshot).2 = snapshot := by
  cases snapshot
  rfl

/-- C9: MultiAddClientKeywords and MultiAddClientLabels return successfully
without touching storage and without raising when the client-id collection
or the keyword/label collection is empty, even when supplied client ids
have no Pointer Record: the early return precedes any validation. -/
theorem multiAdd_empty_batch_noop (s : DBState) (now : Timestamp)
    (owner : String) (client_ids : List ClientId) (keywords labels : List String) :
    (client_ids = [] ∨ keywords = [] →
      multiAddClientKeywords s now client_ids keywords = .ok s) ∧
    (client_ids = [] ∨ labels = [] →
      multiAddClientLabels s owner client_ids labels = .ok s) := by
  constructor
  · rintro (h | h) <;> subst h <;> simp [multiAddClientKeywords]
  · rintro (h | h) <;> subst h <;> simp [multiAddClientLabels]

theorem multiAdd_empty_batch_noop_witness :
    (([1] : List ClientId) = [] ∨ ([] : List String) = []) ∧
    multiAddClientKeywords {} 0 [1] [] = .ok {} ∧
    multiAddClientLabels {} "o" [1] [] = .ok {} := by
  refine ⟨Or.inr rfl, ?_, ?_⟩
  · exact (multiAdd_empty_batch_noop {} 0 "o" [1] [] []).1 (Or.inr rfl)
  · exact (multiAdd_empty_batch_noop {} 0 "o" [1] [] []).2 (Or.inr rfl)

/-- C7: Writing to any of the four history streams for a client id with no
Pointer Record fails with `UnknownClient` translated from the foreign-key
integrity violation, and the enclosing transaction leaves all tables
unchanged (no partial row). -/
theorem historyStreamWrite_unknownClient (s : DBState) (now : Timestamp)
    (cid : ClientId) (snapshot : ClientSnapshot) (su : StartupInfo)
    (ci : CrashInfo) (stats : ClientStats)
    (h : lookupClient s.clients cid = none)
    (hcid : snapshot.client_id = cid) :
    ((writeClientSnapshot s now snapshot).1 = .error (.unknownClient cid) ∧
      runInTransaction (fun st => (writeClientSnapshot st now snapshot).1) s = s) ∧
    (writeClientStartupInfo s now cid su = .error (.unknownClient cid) ∧
      runInTransaction (fun st => writeClientStartupInfo st now cid su) s = s) ∧
    (writeClientCrashInfo s now cid ci = .error (.unknownClient cid) ∧
      runInTransaction (fun st => writeClientCrashInfo st now cid ci) s = s) ∧
    (writeClientStats s now cid stats = .error (.unknownClient cid) ∧
      runInTransaction (fun st => writeClientStats st now cid stats) s = s) := by
  subst hcid
  have hsnap : (writeClientSnapshot s now snapshot).1
      = .error (.unknownClient snapshot.client_id) := by
    simp [writeClientSnapshot, insertSnapshotHistory, h, translateFkError]
  have hsu : writeClientStartupInfo s now snapshot.client_id su
      = .error (.unknownClient snapshot.client_id) := by
    simp [writeClientStartupInfo, insertStartupHistory, h]
  have hci : writeClientCrashInfo s now snapshot.client_id ci
      = .error (.unknownClient snapshot.client_id) := by
    simp [writeClientCrashInfo, insertCrashHistory, h]
  have hst : writeClientStats s now snapshot.client_id stats
      = .error (.unknownClient snapshot.client_id) := by
    simp [writeClientStats, h]
  refine ⟨⟨hsnap, ?_⟩, ⟨hsu, ?_⟩, ⟨hci, ?_⟩, ⟨hst, ?_⟩⟩ <;>
    simp [runInTransaction, hsnap, hsu, hci, hst]

theorem historyStreamWrite_unknownClient_witness :
    lookupClient (DBState.clients {}) 1 = none ∧
    ((writeClientSnapshot {} 10 { client_id := 1 }).1
        = .error (.unknownClient 1) ∧
      runInTransaction (fun st => (writeClientSnapshot st 10 { client_id := 1 }).1) {} = {}) ∧
    (writeClientStartupInfo {} 10 1 {} = .error (.unknownClient 1) ∧
      runInTransaction (fun st => writeClientStartupInfo st 10 1 {}) {} = {}) ∧
    (writeClientCrashInfo {} 10 1 {} = .error (.unknownClient 1) ∧
      runInTransaction (fun st => writeClientCrashInfo st 10 1 {}) {} = {}) ∧
    (writeClientStats {} 10 1 {} = .error (.unknownClient 1) ∧
      runInTransaction (fun st => writeClientStats st 10 1 {}) {} = {}) :=
  ⟨rfl, historyStreamWrite_unknownClient {} 10 1 { client_id := 1 } {} {} {}
    rfl rfl⟩

theorem applyMetadataValues_certificate (a : MetadataArgs) (r : ClientRow) :
    (applyMetadataValues a r).certificate
      = match a.certificate with | some c => some c | none => r.certificate := rfl

theorem applyMetadataValues_first_seen (a : MetadataArgs) (r : ClientRow) :
    (applyMetadataValues a r).first_seen
      = match a.first_seen with | some t => some t | none => r.first_seen := rfl

theorem applyMetadataValues_last_ping (a : MetadataArgs) (r : ClientRow) :
    (applyMetadataValues a r).last_ping
      = match a.last_ping with | some t => some t | none => r.last_ping := rfl

theorem applyMetadataValues_last_clock (a : MetadataArgs) (r : ClientRow) :
    (applyMetadataValues a r).last_clock
      = match a.last_clock with | some t => some t | none => r.last_clock := rfl

theorem applyMetadataValues_last_ip (a : MetadataArgs) (r : ClientRow) :
    (applyMetadataValues a r).last_ip
      = match a.last_ip with | some b => some b | none => r.last_ip := rfl

theorem applyMetadataValues_last_foreman (a : MetadataArgs) (r : ClientRow) :
    (applyMetadataValues a r).last_foreman
      = match a.last_foreman with | some t => some t | none => r.last_foreman := rfl

theorem applyMetadataValues_fsvi (a : MetadataArgs) (r : ClientRow) :
    (applyMetadataValues a r).last_fleetspeak_validation_info
      = match a.fleetspeak_validation_info with
        | some l => if l = [] then none else some l
        | none => none := rfl

theorem applyMetadataValues_pointer_fields (a : MetadataArgs) (r : ClientRow) :
    (applyMetadataValues a r).last_snapshot_timestamp = r.last_snapshot_timestamp ∧
    (applyMetadataValues a r).last_startup_timestamp = r.last_startup_timestamp ∧
    (applyMetadataValues a r).last_crash_timestamp = r.last_crash_timestamp ∧
    (applyMetadataValues a r).last_version_string = r.last_version_string ∧
    (applyMetadataValues a r).last_platform = r.last_platform ∧
    (applyMetadataValues a r).last_platform_release = r.last_platform_release :=
  ⟨rfl, rfl, rfl, rfl, rfl, rfl⟩

/-- C6: WriteClientMetadata is a sparse partial update: for an existing
Pointer Record, the upsert assigns only the columns of the supplied
optional fields — every unset optional field (and every column never in
the upsert's column list, such as the pointers) keeps its stored value —
with the single exception of `last_fleetspeak_validation_info`, which is
explicitly set to NULL whenever the argument is absent or empty. -/
theorem writeClientMetadata_sparse_update (s : DBState) (cid : ClientId)
    (a : MetadataArgs) (row : ClientRow)
    (h : lookupClient s.clients cid = some row) :
    lookupClient (writeClientMetadata s cid a).clients cid
        = some (applyMetadataValues a row) ∧
    (a.certificate = none →
      (applyMetadataValues a row).certificate = row.certificate) ∧
    (a.first_seen = none →
      (applyMetadataValues a row).first_seen = row.first_seen) ∧
    (a.last_ping = none →
      (applyMetadataValues a row).last_ping = row.last_ping) ∧
    (a.last_clock = none →
      (applyMetadataValues a row).last_clock = row.last_clock) ∧
    (a.last_ip = none →
      (applyMetadataValues a row).last_ip = row.last_ip) ∧
    (a.last_foreman = none →
      (applyMetadataValues a row).last_foreman = row.last_foreman) ∧
    (applyMetadataValues a row).last_snapshot_timestamp = row.last_snapshot_timestamp ∧
    (applyMetadataValues a row).last_startup_timestamp = row.last_startup_timestamp ∧
    (applyMetadataValues a row).last_crash_timestamp = row.last_crash_timestamp ∧
    (applyMetadataValues a row).last_version_string = row.last_version_string ∧
    (applyMetadataValues a row).last_platform = row.last_platform ∧
    (applyMetadataValues a row).last_platform_release = row.last_platform_release ∧
    (a.fleetspeak_validation_info = none ∨ a.fleetspeak_validation_info = some [] →
      (applyMetadataValues a row).last_fleetspeak_validation_info = none) := by
  obtain ⟨p1, p2, p3, p4, p5, p6⟩ := applyMetadataValues_pointer_fields a row
  refine ⟨?_, ?_, ?_, ?_, ?_, ?_, ?_, p1, p2, p3, p4, p5, p6, ?_⟩
  · simp [writeClientMetadata, h, lookupClient_updateClient]
  · intro hn; rw [applyMetadataValues_certificate, hn]
  · intro hn; rw [applyMetadataValues_first_seen, hn]
  · intro hn; rw [applyMetadataValues_last_ping, hn]
  · intro hn; rw [applyMetadataValues_last_clock, hn]
  · intro hn; rw [applyMetadataValues_last_ip, hn]
  · intro hn; rw [applyMetadataValues_last_foreman, hn]
  · rintro (hn | hn) <;> rw [applyMetadataValues_fsvi, hn] <;> rfl

theorem writeClientMetadata_sparse_update_witness :
    lookupClient (DBState.clients { clients := [(1, { last_clock := some 4 })] }) 1
        = some { last_clock := some 4 } ∧
    (lookupClient (writeClientMetadata { clients := [(1, { last_clock := some 4 })] } 1
          { last_ping := some 7 }).clients 1
        = some (applyMetadataValues { last_ping := some 7 } { last_clock := some 4 }) ∧
      (MetadataArgs.certificate { last_ping := some 7 } = none →
        (applyMetadataValues { last_ping := some 7 } { last_clock := some 4 }).certificate
          = ClientRow.certificate { last_clock := some 4 }) ∧
      (MetadataArgs.first_seen { last_ping := some 7 } = none →
        (applyMetadataValues { last_ping := some 7 } { last_clock := some 4 }).first_seen
          = ClientRow.first_seen { last_clock := some 4 }) ∧
      (MetadataArgs.last_ping { last_ping := some 7 } = none →
        (applyMetadataValues { last_ping := some 7 } { last_clock := some 4 }).last_ping
          = ClientRow.last_ping { last_clock := some 4 }) ∧
      (MetadataArgs.last_clock { last_ping := some 7 } = none →
        (applyMetadataValues { last_ping := some 7 } { last_clock := some 4 }).last_clock
          = ClientRow.last_clock { last_clock := some 4 }) ∧
      (MetadataArgs.last_ip { last_ping := some 7 } = none →
        (applyMetadataValues { last_ping := some 7 } { last_clock := some 4 }).last_ip
          = ClientRow.last_ip { last_clock := some 4 }) ∧
      (MetadataArgs.last_foreman { last_ping := some 7 } = none →
        (applyMetadataValues { last_ping := some 7 } { last_clock := some 4 }).last_foreman
          = ClientRow.last_foreman { last_clock := some 4 }) ∧
      (applyMetadataValues { last_ping := some 7 } { last_clock := some 4 }).last_snapshot_timestamp
        = ClientRow.last_snapshot_timestamp { last_clock := some 4 } ∧
      (applyMetadataValues { last_ping := some 7 } { last_clock := some 4 }).last_startup_timestamp
        = ClientRow.last_startup_timestamp { last_clock := some 4 } ∧
      (applyMetadataValues { last_ping := some 7 } { last_clock := some 4 }).last_crash_timestamp
        = ClientRow.last_crash_timestamp { last_clock := some 4 } ∧
      (applyMetadataValues { last_ping := some 7 } { last_clock := some 4 }).last_version_string
        = ClientRow.last_version_string { last_clock := some 4 } ∧
      (applyMetadataValues { last_ping := some 7 } { last_clock := some 4 }).last_platform
        = ClientRow.last_platform { last_clock := some 4 } ∧
      (applyMetadataValues { last_ping := some 7 } { last_clock := some 4 }).last_platform_release
        = ClientRow.last_platform_release { last_clock := some 4 } ∧
      (MetadataArgs.fleetspeak_validation_info { last_ping := some 7 } = none ∨
          MetadataArgs.fleetspeak_validation_info { last_ping := some 7 } = some [] →
        (applyMetadataValues { last_ping := some 7 } { last_clock := some 4 }).last_fleetspeak_validation_info
          = none)) :=
  ⟨by decide, writeClientMetadata_sparse_update
    { clients := [(1, { last_clock := some 4 })] } 1 { last_ping := some 7 }
    { last_clock := some 4 } (by decide)⟩

/-- C4 counterexample: the `DeleteClient` UPDATE clears exactly three pointer
columns, not four: the clients table carries no pointer for the Stats
History stream, so no fourth pointer field exists to be cleared. -/
theorem deleteClient_clears_three_not_four_pointer_columns :
    deleteClientClearedPointerColumns.length = 3 ∧
    deleteClientClearedPointerColumns.length ≠ 4 := by
  decide

/-- C4 (amended): for every existing client, DeleteClient clears the three
history-stream pointer fields (snapshot, startup, crash — the Stats
History stream has no pointer field on the Pointer Record) and then
removes the Pointer Record row, so that a subsequent latest-value read for
the snapshot, startup or crash stream returns an absent value rather than
raising an error. -/
theorem deleteClient_clears_pointers_and_removes_row (s : DBState)
    (cid : ClientId) (s2 : DBState) (h : deleteClient s cid = .ok s2) :
    lookupClient s2.clients cid = none ∧
    multiReadClientSnapshot s2 [cid] = [(cid, none)] ∧
    readClientStartupInfo s2 cid = none ∧
    readClientCrashInfo s2 cid = none ∧
    deleteClientClearedPointerColumns
      = ["last_crash_timestamp", "last_snapshot_timestamp",
         "last_startup_timestamp"] := by
  unfold deleteClient at h
  split at h
  · exact absurd h (by simp)
  · injection h with h2
    subst h2
    have hlook : lookupClient
        (DBState.clients { s with clients := removeClient (updateClient s.clients cid
          (fun r => { r with
            last_crash_timestamp := none,
            last_snapshot_timestamp := none,
            last_startup_timestamp := none })) cid }) cid = none := by
      simpa using lookupClient_removeClient _ cid
    refine ⟨hlook, ?_, ?_, ?_, rfl⟩
    · simp [multiReadClientSnapshot, hlook]
    · simp [readClientStartupInfo, hlook]
    · simp [readClientCrashInfo, hlook]

theorem deleteClient_clears_pointers_and_removes_row_witness :
    deleteClient
        { clients := [(1, { last_snapshot_timestamp := some 5 })] } 1
        = .ok { clients := [] } ∧
    (lookupClient (DBState.clients { clients := [] }) 1 = none ∧
      multiReadClientSnapshot { clients := [] } [1] = [(1, none)] ∧
      readClientStartupInfo { clients := [] } 1 = none ∧
      readClientCrashInfo { clients := [] } 1 = none ∧
      deleteClientClearedPointerColumns
        = ["last_crash_timestamp", "last_snapshot_timestamp",
           "last_startup_timestamp"]) :=
  ⟨by decide, deleteClient_clears_pointers_and_removes_row
    { clients := [(1, { last_snapshot_timestamp := some 5 })] } 1
    { clients := [] } (by decide)⟩

/-- C5 counterexample: in the state with one client (id 7) whose
`last_snapshot_timestamp` pointer is NULL, `MultiReadClientSnapshot` maps
the client to an absent value (`None`), not to an empty-shell snapshot
carrying the identifier, and `MultiReadClientMetadata` returns a metadata
record for it, not an absent value — both halves of the claim fail. -/
theorem multiRead_pointerless_counterexample :
    multiReadClientSnapshot { clients := [(7, {})] } [7] = [(7, none)] ∧
    (7, some ({ client_id := 7 } : ClientSnapshot))
        ∉ multiReadClientSnapshot { clients := [(7, {})] } [7] ∧
    multiReadClientMetadata { clients := [(7, {})] } [7]
        = [(7, mkClientMetadata {})] ∧
    multiReadClientMetadata { clients := [(7, {})] } [7] ≠ [] := by
  decide

/-- C5 (amended): a requested client that exists but has a NULL
`last_snapshot_timestamp` pointer is mapped to an absent value (`None`) by
MultiReadClientSnapshot — the empty-shell snapshot exists only in
MultiReadClientFullInfo — while MultiReadClientMetadata returns its full
metadata record; the two batched readers are asymmetric for clients with
no Pointer Record at all: the snapshot reader keeps the requested key
mapped to `None` while the metadata reader omits the key. -/
theorem multiRead_pointerless_asymmetry (s : DBState) (cid : ClientId)
    (row : ClientRow) (h : lookupClient s.clients cid = some row)
    (hp : row.last_snapshot_timestamp = none) :
    (multiReadClientSnapshot s [cid] = [(cid, none)] ∧
      multiReadClientMetadata s [cid] = [(cid, mkClientMetadata row)]) ∧
    (∀ s2 : DBState, ∀ cid2 : ClientId,
      lookupClient s2.clients cid2 = none →
      multiReadClientSnapshot s2 [cid2] = [(cid2, none)] ∧
      multiReadClientMetadata s2 [cid2] = []) := by
  constructor
  · constructor
    · simp [multiReadClientSnapshot, h, hp]
    · simp [multiReadClientMetadata, h]
  · intro s2 cid2 h2
    constructor
    · simp [multiReadClientSnapshot, h2]
    · simp [multiReadClientMetadata, h2]

theorem multiRead_pointerless_asymmetry_witness :
    lookupClient (DBState.clients { clients := [(7, {})] }) 7 = some {} ∧
    (multiReadClientSnapshot { clients := [(7, {})] } [7] = [(7, none)] ∧
      multiReadClientMetadata { clients := [(7, {})] } [7]
        = [(7, mkClientMetadata {})]) :=
  ⟨by decide, (multiRead_pointerless_asymmetry { clients := [(7, {})] } 7 {}
    (by decide) (by decide)).1⟩

theorem deleteStatsUpTo_fst (rows : List StatsRow) (cutoff : Timestamp) :
    ∀ k, (deleteStatsUpTo rows cutoff k).1
      = min k (eligibleStatsCount rows cutoff) := by
  induction rows with
  | nil => intro k; cases k <;> simp [deleteStatsUpTo, eligibleStatsCount]
  | cons r rs ih =>
    intro k
    cases k with
    | zero => simp [deleteStatsUpTo]
    | succ k =>
      by_cases h : r.timestamp < cutoff
      · have hk := ih k
        simp [deleteStatsUpTo, eligibleStatsCount, h] at hk ⊢
        rw [hk]
        omega
      · have hk := ih (k + 1)
        simp [deleteStatsUpTo, eligibleStatsCount, h] at hk ⊢
        exact hk

theorem deleteStatsUpTo_elig (rows : List StatsRow) (cutoff : Timestamp) :
    ∀ k, eligibleStatsCount (deleteStatsUpTo rows cutoff k).2 cutoff
      = eligibleStatsCount rows cutoff - k := by
  induction rows with
  | nil => intro k; cases k <;> simp [deleteStatsUpTo, eligibleStatsCount]
  | cons r rs ih =>
    intro k
    cases k with
    | zero => simp [deleteStatsUpTo]
    | succ k =>
      by_cases h : r.timestamp < cutoff
      · have hk := ih k
        simp [deleteStatsUpTo, eligibleStatsCount, h] at hk ⊢
        rw [hk]
      · have hk := ih (k + 1)
        simp [deleteStatsUpTo, eligibleStatsCount, h] at hk ⊢
        rw [hk]

theorem deleteOldClientStatsLoop_eq (cutoff : Timestamp) (b : Nat) :
    ∀ (n : Nat) (rows : List StatsRow),
      eligibleStatsCount rows cutoff = n →
      deleteOldClientStatsLoop rows cutoff b = purgeCounts n b := by
  intro n
  induction n using Nat.strong_induction_on with
  | _ n ih =>
    intro rows hn
    have h1 := deleteStatsUpTo_fst rows cutoff b
    have h2 := deleteStatsUpTo_elig rows cutoff b
    rw [hn] at h1 h2
    rw [deleteOldClientStatsLoop, purgeCounts, h1]
    by_cases hp : 0 < min b n
    · rw [dif_pos hp, dif_pos hp]
      have hb := Nat.min_le_left b n
      have hnn := Nat.min_le_right b n
      exact congrArg _ (ih (n - b) (by omega) _ h2)
    · rw [dif_neg hp, dif_neg hp]

theorem purgeCounts_formula (b : Nat) (hb : 0 < b) :
    ∀ n, purgeCounts n b
      = List.replicate (n / b) b ++ (if n % b = 0 then [] else [n % b]) := by
  intro n
  induction n using Nat.strong_induction_on with
  | _ n ih =>
    rw [purgeCounts]
    by_cases hn : 0 < n
    · by_cases hbn : n < b
      · have hmin : min b n = n := Nat.min_eq_right (le_of_lt hbn)
        rw [hmin, dif_pos hn]
        have hz : n - b = 0 := by omega
        rw [hz, purgeCounts]
        simp [Nat.div_eq_of_lt hbn, Nat.mod_eq_of_lt hbn]
        rw [if_neg (by omega : ¬ n = 0)]
      · push_neg at hbn
        have hmin : min b n = b := Nat.min_eq_left hbn
        rw [hmin, dif_pos hb, ih (n - b) (by omega)]
        have hrepr : n = (n - b) + b := by omega
        rw [hrepr, Nat.add_div_right _ hb, Nat.add_mod_right,
          List.replicate_succ, Nat.add_sub_cancel]
        rfl
    · have hz : n = 0 := by omega
      subst hz
      simp

/-- C8: for every cutoff and positive batch size `b`, DeleteOldClientStats
over a table with `n` rows older than the cutoff yields the sequence of
per-batch deleted-row counts `floor(n/b)` batches of size `b` followed by
a final batch of `n mod b` when that remainder is non-zero, never yields a
zero count (it stops as soon as a batch deletes zero rows), and in
particular with `b = 2` over 5 eligible rows yields `[2, 2, 1]`. -/
theorem deleteOldClientStats_batch_counts :
    (∀ (s : DBState) (cutoff : Timestamp) (b : Nat), 0 < b →
      deleteOldClientStats s cutoff b
          = List.replicate (eligibleStatsCount s.client_stats cutoff / b) b ++
            (if eligibleStatsCount s.client_stats cutoff % b = 0 then []
             else [eligibleStatsCount s.client_stats cutoff % b]) ∧
      (0 : Nat) ∉ deleteOldClientStats s cutoff b) ∧
    deleteOldClientStats c8ExampleState 100 2 = [2, 2, 1] := by
  have main : ∀ (s : DBState) (cutoff : Timestamp) (b : Nat), 0 < b →
      deleteOldClientStats s cutoff b
        = List.replicate (eligibleStatsCount s.client_stats cutoff / b) b ++
          (if eligibleStatsCount s.client_stats cutoff % b = 0 then []
           else [eligibleStatsCount s.client_stats cutoff % b]) := by
    intro s cutoff b hb
    rw [deleteOldClientStats, deleteOldClientStatsLoop_eq cutoff b _ _ rfl,
      purgeCounts_formula b hb]
  refine ⟨fun s cutoff b hb => ⟨main s cutoff b hb, ?_⟩, ?_⟩
  · rw [main s cutoff b hb]
    intro hmem
    rcases List.mem_append.mp hmem with hmem | hmem
    · exact absurd (List.eq_of_mem_replicate hmem).symm (by omega)
    · by_cases hz : eligibleStatsCount s.client_stats cutoff % b = 0
      · rw [if_pos hz] at hmem
        simp at hmem
      · rw [if_neg hz] at hmem
        rw [List.mem_singleton] at hmem
        omega
  · rw [main c8ExampleState 100 2 (by decide)]
    decide

theorem deleteOldClientStats_batch_counts_witness :
    0 < 2 ∧
    (deleteOldClientStats c8ExampleState 100 2
        = List.replicate (eligibleStatsCount c8ExampleState.client_stats 100 / 2) 2 ++
          (if eligibleStatsCount c8ExampleState.client_stats 100 % 2 = 0 then []
           else [eligibleStatsCount c8ExampleState.client_stats 100 % 2]) ∧
      (0 : Nat) ∉ deleteOldClientStats c8ExampleState 100 2) :=
  ⟨by decide,
    (deleteOldClientStats_batch_counts.1 c8ExampleState 100 2 (by decide))⟩

theorem sumActives_eq_length (v lbl : Option String) (cutoff : Timestamp) :
    ∀ rows : List StatJoinRow,
      sumActives rows v lbl cutoff
        = (rows.filter (fun r =>
            r.stat = v ∧ r.label = lbl ∧ cutoff < r.ping)).length := by
  intro rows
  induction rows with
  | nil => rfl
  | cons r rest ih =>
    by_cases h1 : r.stat = v <;> by_cases h2 : r.label = lbl <;>
      by_cases h3 : cutoff < r.ping <;>
      simp [sumActives, pingActiveCast, h1, h2, h3] at ih ⊢ <;>
      omega

/-- C3 counterexample: a client whose `last_ping` equals the bucket cutoff
exactly (last_ping = now − 1 day) is *not* counted by the fleet
aggregator (the SQL cast is a strict `>` comparison), while the spec's
at-or-after predicate counts it. -/
theorem countClientStatistic_cutoff_equality_counterexample :
    countClientStatisticTotalCell
        { clients := [(1, { last_ping := some microsPerDay,
                            last_platform := some "Linux" })] }
        .last_platform (2 * microsPerDay) 1 (some "Linux") = 0 ∧
    specCountClientStatisticTotalCell
        { clients := [(1, { last_ping := some microsPerDay,
                            last_platform := some "Linux" })] }
        .last_platform (2 * microsPerDay) 1 (some "Linux") = 1 := by
  constructor
  · rfl
  · rfl

/-- C3 (amended): for every day bucket N, a client is counted as active for
that bucket exactly when its `last_ping` is strictly after the cutoff
timestamp now − N days (a ping exactly at the cutoff is not counted), in
both the per-label and the fleet-wide breakdowns, and the three public
aggregators are instances of the same counting for their three statistic
columns. -/
theorem countClientStatistic_active_iff_strictly_after_cutoff :
    (∀ ping cutoff : Timestamp, pingActiveCast ping cutoff = 1 ↔ cutoff < ping) ∧
    (∀ (s : DBState) (col : StatColumn) (now : Timestamp) (day_bucket : Nat)
        (v : Option String),
      countClientStatisticTotalCell s col now day_bucket v
        = ((statTotalRows s col).filter (fun r =>
            r.stat = v ∧ timestampBucket now day_bucket < r.ping)).length) ∧
    (∀ (s : DBState) (col : StatColumn) (now : Timestamp) (day_bucket : Nat)
        (v : Option String) (lbl : String),
      countClientStatisticByLabelCell s col now day_bucket v lbl
        = ((grrStatLabelRows s col).filter (fun r =>
            r.stat = v ∧ r.label = some lbl ∧
              timestampBucket now day_bucket < r.ping)).length) ∧
    (∀ (s : DBState) (now : Timestamp) (day_bucket : Nat) (v : Option String),
      countClientVersionStringsByLabelTotalCell s now day_bucket v
        = countClientStatisticTotalCell s .last_version_string now day_bucket v ∧
      countClientPlatformsByLabelTotalCell s now day_bucket v
        = countClientStatisticTotalCell s .last_platform now day_bucket v ∧
      countClientPlatformReleasesByLabelTotalCell s now day_bucket v
        = countClientStatisticTotalCell s .last_platform_release now day_bucket v) := by
  refine ⟨?_, ?_, ?_, ?_⟩
  · intro ping cutoff
    by_cases h : cutoff < ping <;> simp [pingActiveCast, h]
  · intro s col now day_bucket v
    rw [countClientStatisticTotalCell, sumActives_eq_length]
    congr 1
    apply List.filter_congr
    intro r hr
    have hlbl : r.label = none := by
      rw [statTotalRows] at hr
      obtain ⟨cr, hcr, hmap⟩ := List.mem_filterMap.mp hr
      obtain ⟨p, hp, hmk⟩ := Option.map_eq_some'.mp hmap
      rw [← hmk]
    simp [hlbl]
  · intro s col now day_bucket v lbl
    rw [countClientStatisticByLabelCell, sumActives_eq_length]
  · intro s now day_bucket v
    exact ⟨rfl, rfl, rfl⟩

theorem insertSnapshotHistory_clients (s : DBState) (cid : ClientId)
    (ts : Timestamp) (snap : ClientSnapshot) (s2 : DBState)
    (h : insertSnapshotHistory s cid ts snap = .ok s2) :
    s2.clients = s.clients := by
  unfold insertSnapshotHistory at h
  split at h
  · exact absurd h (by simp)
  · split at h
    · exact absurd h (by simp)
    · injection h with h2
      subst h2
      rfl

theorem insertStartupHistory_clients (s : DBState) (cid : ClientId)
    (ts : Timestamp) (su : StartupInfo) (s2 : DBState)
    (h : insertStartupHistory s cid ts su = .ok s2) :
    s2.clients = s.clients := by
  unfold insertStartupHistory at h
  split at h
  · exact absurd h (by simp)
  · split at h
    · exact absurd h (by simp)
    · injection h with h2
      subst h2
      rfl

theorem insertSnapshotPairs_clients (batch : List ClientSnapshot) :
    ∀ (s s1 : DBState) (cid : ClientId),
      insertSnapshotPairs s cid batch = .ok s1 → s1.clients = s.clients := by
  induction batch with
  | nil =>
    intro s s1 cid h
    unfold insertSnapshotPairs at h
    injection h with h2
    subst h2
    rfl
  | cons c rest ih =>
    intro s s1 cid h
    obtain ⟨ccid, cts, csu, cv, cos, cun⟩ := c
    unfold insertSnapshotPairs at h
    cases cts with
    | none => simp at h
    | some ts =>
      cases csu with
      | none => simp at h
      | some su =>
        dsimp only at h
        cases hins : insertSnapshotHistory s cid ts
            ⟨ccid, some ts, none, cv, cos, cun⟩ with
        | error e => rw [hins] at h; simp at h
        | ok sa =>
          rw [hins] at h
          dsimp only at h
          cases hins2 : insertStartupHistory sa cid ts su with
          | error e => rw [hins2] at h; simp at h
          | ok sb =>
            rw [hins2] at h
            dsimp only at h
            calc s1.clients = sb.clients := ih sb s1 cid h
              _ = sa.clients := insertStartupHistory_clients sa cid ts su sb hins2
              _ = s.clients := insertSnapshotHistory_clients s cid ts _ sa hins

theorem writeClientSnapshotHistory_ok (s : DBState)
    (batch : List ClientSnapshot) (c0 : ClientSnapshot) (m : Timestamp)
    (s1 : DBState) (hh : batch.head? = some c0)
    (hm : maxBatchTimestamp batch = some m)
    (h : writeClientSnapshotHistory s batch = .ok s1) :
    ∃ sa, insertSnapshotPairs s c0.client_id batch = .ok sa ∧
      s1 = { sa with clients := updateClient sa.clients c0.client_id (fun r =>
        { r with
          last_snapshot_timestamp := guardAdvance r.last_snapshot_timestamp m,
          last_startup_timestamp := guardAdvance r.last_startup_timestamp m }) } := by
  unfold writeClientSnapshotHistory at h
  rw [hh, hm] at h
  dsimp only at h
  cases hp : insertSnapshotPairs s c0.client_id batch with
  | error e =>
    rw [hp] at h
    cases e <;> simp at h
  | ok sa =>
    rw [hp] at h
    dsimp only at h
    injection h with h2
    exact ⟨sa, rfl, h2.symm⟩

theorem writeClientSnapshotHistory_pointer_update (s s1 : DBState)
    (batch : List ClientSnapshot) (c0 : ClientSnapshot) (m : Timestamp)
    (row : ClientRow) (hh : batch.head? = some c0)
    (hm : maxBatchTimestamp batch = some m)
    (hrow : lookupClient s.clients c0.client_id = some row)
    (h : writeClientSnapshotHistory s batch = .ok s1) :
    lookupClient s1.clients c0.client_id
      = some { row with
          last_snapshot_timestamp := guardAdvance row.last_snapshot_timestamp m,
          last_startup_timestamp := guardAdvance row.last_startup_timestamp m } := by
  obtain ⟨sa, hp, hs1⟩ := writeClientSnapshotHistory_ok s batch c0 m s1 hh hm h
  subst hs1
  have hc : sa.clients = s.clients := insertSnapshotPairs_clients batch s sa _ hp
  show lookupClient (updateClient sa.clients c0.client_id _) c0.client_id = _
  rw [lookupClient_updateClient, hc, hrow]
  rfl

/-- C1: the bulk writer WriteClientSnapshotHistory advances the
`last_snapshot_timestamp` and `last_startup_timestamp` pointers to the
batch's maximum timestamp only under the monotonicity guard (stored
pointer NULL or smaller), so a stored pointer is never pushed backward:
the new pointer is the max of the old pointer and the batch maximum (and
in particular the pointers are non-decreasing across writes), and after
writing a batch with max timestamp 5 and a batch with max timestamp 3 in
either order the pointer equals 5. -/
theorem writeClientSnapshotHistory_monotonic_guard :
    (∀ (s s1 : DBState) (batch : List ClientSnapshot) (c0 : ClientSnapshot)
        (m : Timestamp) (row : ClientRow),
      batch.head? = some c0 →
      maxBatchTimestamp batch = some m →
      lookupClient s.clients c0.client_id = some row →
      writeClientSnapshotHistory s batch = .ok s1 →
      lookupClient s1.clients c0.client_id
        = some { row with
            last_snapshot_timestamp := guardAdvance row.last_snapshot_timestamp m,
            last_startup_timestamp := guardAdvance row.last_startup_timestamp m }) ∧
    (∀ (o : Option Timestamp) (m t : Timestamp),
      (o = none → guardAdvance o m = some m) ∧
      (o = some t → guardAdvance o m = some (max t m)) ∧
      (o = some t → t ≤ max t m)) ∧
    (∀ (s s1 s2 : DBState) (b1 b2 : List ClientSnapshot)
        (c0 c1 : ClientSnapshot) (row : ClientRow),
      b1.head? = some c0 → b2.head? = some c1 → c1.client_id = c0.client_id →
      maxBatchTimestamp b1 = some 5 → maxBatchTimestamp b2 = some 3 →
      lookupClient s.clients c0.client_id = some row →
      row.last_snapshot_timestamp = none → row.last_startup_timestamp = none →
      writeClientSnapshotHistory s b1 = .ok s1 →
      writeClientSnapshotHistory s1 b2 = .ok s2 →
      lookupClient s2.clients c0.client_id
        = some { row with last_snapshot_timestamp := some 5,
                          last_startup_timestamp := some 5 }) ∧
    (∀ (s s1 s2 : DBState) (b1 b2 : List ClientSnapshot)
        (c0 c1 : ClientSnapshot) (row : ClientRow),
      b1.head? = some c0 → b2.head? = some c1 → c1.client_id = c0.client_id →
      maxBatchTimestamp b1 = some 3 → maxBatchTimestamp b2 = some 5 →
      lookupClient s.clients c0.client_id = some row →
      row.last_snapshot_timestamp = none → row.last_startup_timestamp = none →
      writeClientSnapshotHistory s b1 = .ok s1 →
      writeClientSnapshotHistory s1 b2 = .ok s2 →
      lookupClient s2.clients c0.client_id
        = some { row with last_snapshot_timestamp := some 5,
                          last_startup_timestamp := some 5 }) := by
  refine ⟨writeClientSnapshotHistory_pointer_update, ?_, ?_, ?_⟩
  · intro o m t
    refine ⟨fun h => by rw [h]; rfl, fun h => ?_, fun h => Nat.le_max_left t m⟩
    rw [h]
    rcases Nat.lt_or_ge t m with hlt | hge
    · simp [guardAdvance, hlt, Nat.max_eq_right (le_of_lt hlt)]
    · simp [guardAdvance, Nat.not_lt.mpr hge, Nat.max_eq_left hge]
  · intro s s1 s2 b1 b2 c0 c1 row hh1 hh2 hcid hm1 hm2 hrow hp hq hw1 hw2
    have h1 := writeClientSnapshotHistory_pointer_update s s1 b1 c0 5 row
      hh1 hm1 hrow hw1
    rw [hp, hq] at h1
    have h1b : lookupClient s1.clients c1.client_id
        = some { row with last_snapshot_timestamp := some 5,
                          last_startup_timestamp := some 5 } := by
      rw [hcid]
      exact h1
    have h2 := writeClientSnapshotHistory_pointer_update s1 s2 b2 c1 3
      { row with last_snapshot_timestamp := some 5,
                 last_startup_timestamp := some 5 }
      hh2 hm2 h1b hw2
    rw [hcid] at h2
    simpa [guardAdvance] using h2
  · intro s s1 s2 b1 b2 c0 c1 row hh1 hh2 hcid hm1 hm2 hrow hp hq hw1 hw2
    have h1 := writeClientSnapshotHistory_pointer_update s s1 b1 c0 3 row
      hh1 hm1 hrow hw1
    rw [hp, hq] at h1
    have h1b : lookupClient s1.clients c1.client_id
        = some { row with last_snapshot_timestamp := some 3,
                          last_startup_timestamp := some 3 } := by
      rw [hcid]
      exact h1
    have h2 := writeClientSnapshotHistory_pointer_update s1 s2 b2 c1 5
      { row with last_snapshot_timestamp := some 3,
                 last_startup_timestamp := some 3 }
      hh2 hm2 h1b hw2
    rw [hcid] at h2
    simpa [guardAdvance] using h2

/-- Concrete snapshot with timestamp 5 for the bulk-writer scenario. -/
def c1Snap5 : ClientSnapshot :=
  { client_id := 1, timestamp := some 5, startup_info := some {} }

/-- Concrete snapshot with timestamp 3 for the bulk-writer scenario. -/
def c1Snap3 : ClientSnapshot :=
  { client_id := 1, timestamp := some 3, startup_info := some {} }

/-- One registered client with all pointers NULL. -/
def c1State0 : DBState := { clients := [(1, {})] }

/-- The state after bulk-writing the timestamp-5 batch. -/
def c1State1 : DBState :=
  match writeClientSnapshotHistory c1State0 [c1Snap5] with
  | .ok s => s
  | .error _ => c1State0

/-- The state after then bulk-writing the timestamp-3 batch. -/
def c1State2 : DBState :=
  match writeClientSnapshotHistory c1State1 [c1Snap3] with
  | .ok s => s
  | .error _ => c1State1

theorem writeClientSnapshotHistory_monotonic_guard_witness :
    ([c1Snap5].head? = some c1Snap5 ∧ [c1Snap3].head? = some c1Snap3 ∧
      c1Snap3.client_id = c1Snap5.client_id ∧
      maxBatchTimestamp [c1Snap5] = some 5 ∧
      maxBatchTimestamp [c1Snap3] = some 3 ∧
      lookupClient c1State0.clients c1Snap5.client_id = some {} ∧
      ClientRow.last_snapshot_timestamp {} = none ∧
      ClientRow.last_startup_timestamp {} = none ∧
      writeClientSnapshotHistory c1State0 [c1Snap5] = .ok c1State1 ∧
      writeClientSnapshotHistory c1State1 [c1Snap3] = .ok c1State2) ∧
    lookupClient c1State2.clients c1Snap5.client_id
      = some { last_snapshot_timestamp := some 5,
               last_startup_timestamp := some 5 } :=
  ⟨⟨by decide, by decide, by decide, by decide, by decide, by decide,
    by decide, by decide, by decide, by decide⟩,
    writeClientSnapshotHistory_monotonic_guard.2.2.1 c1State0 c1State1 c1State2
      [c1Snap5] [c1Snap3] c1Snap5 c1Snap3 {} (by decide) (by decide)
      (by decide) (by decide) (by decide) (by decide) (by decide) (by decide)
      (by decide) (by decide)⟩

theorem foldl_addLabelRow_labels (g : List FullInfoRow) :
    ∀ info : ClientFullInfo,
      (g.foldl addLabelRow info).labels
        = info.labels ++ g.filterMap rowLabel := by
  induction g with
  | nil => intro info; simp
  | cons r rest ih =>
    intro info
    rw [List.foldl_cons, ih (addLabelRow info r), List.filterMap_cons]
    cases h : rowLabel r <;> simp [addLabelRow, h]

theorem fullInfoGo_run (g : List FullInfoRow) (pcid : ClientId)
    (hall : ∀ r ∈ g, r.cid = pcid) :
    ∀ (info : ClientFullInfo) (rest : List FullInfoRow),
      fullInfoGo (some (pcid, info)) (g ++ rest)
        = fullInfoGo (some (pcid, g.foldl addLabelRow info)) rest := by
  induction g with
  | nil => intro info rest; simp
  | cons r g2 ih =>
    intro info rest
    have hr : r.cid = pcid := hall r (List.mem_cons_self r g2)
    rw [List.cons_append]
    simp only [fullInfoGo]
    rw [if_pos hr, List.foldl_cons]
    exact ih (fun x hx => hall x (List.mem_cons_of_mem r hx))
      (addLabelRow info r) rest

theorem fullInfoGo_groups :
    ∀ (groups : List (ClientId × List FullInfoRow)) (pcid : ClientId)
      (info : ClientFullInfo),
      (∀ p ∈ groups, p.2 ≠ [] ∧ ∀ r ∈ p.2, r.cid = p.1) →
      (∀ p ∈ groups, p.1 ≠ pcid) →
      (groups.map Prod.fst).Nodup →
      fullInfoGo (some (pcid, info)) ((groups.map Prod.snd).join)
        = (pcid, info) :: groups.map (fun p => (p.1, groupFullInfo p.2)) := by
  intro groups
  induction groups with
  | nil =>
    intro pcid info _ _ _
    simp [fullInfoGo]
  | cons p gs ih =>
    intro pcid info hwf hne hnd
    obtain ⟨c, g⟩ := p
    obtain ⟨hgne, hgc⟩ := hwf (c, g) (List.mem_cons_self _ _)
    cases g with
    | nil => exact absurd rfl hgne
    | cons r g2 =>
      have hrc : r.cid = c := hgc r (List.mem_cons_self _ _)
      have hcp : ¬ r.cid = pcid := by
        rw [hrc]
        exact hne (c, r :: g2) (List.mem_cons_self _ _)
      simp only [List.map_cons, List.join_cons, List.cons_append, fullInfoGo]
      rw [if_neg hcp, hrc]
      simp only [List.append_eq]
      rw [fullInfoGo_run g2 c (fun x hx => hgc x (List.mem_cons_of_mem r hx))]
      obtain ⟨hnotin, hnd2⟩ := List.nodup_cons.mp hnd
      have hne2 : ∀ q ∈ gs, q.1 ≠ c := by
        intro q hq heq
        have hmem : q.1 ∈ List.map Prod.fst gs :=
          List.mem_map_of_mem Prod.fst hq
        rw [heq] at hmem
        exact hnotin hmem
      rw [ih c (g2.foldl addLabelRow (addLabelRow (mkFullInfo r) r))
        (fun q hq => hwf q (List.mem_cons_of_mem _ hq)) hne2 hnd2]
      rfl

/-- C2: for every result-row sequence in which all rows sharing a client id
are contiguous (formalized as a concatenation of per-client groups with
pairwise distinct client ids), the grouping consumer
`_ResponseToClientsFullInfo` used by MultiReadClientFullInfo yields
exactly one (client id, full-info) pair per group, in order — flushing a
completed record each time the client id changes and a final one after
the last row — and each client's labels list is exactly the (truthy)
label rows of that client's rows. -/
theorem responseToClientsFullInfo_groups
    (groups : List (ClientId × List FullInfoRow))
    (hwf : ∀ p ∈ groups, p.2 ≠ [] ∧ ∀ r ∈ p.2, r.cid = p.1)
    (hnd : (groups.map Prod.fst).Nodup) :
    responseToClientsFullInfo ((groups.map Prod.snd).join)
        = groups.map (fun p => (p.1, groupFullInfo p.2)) ∧
    ∀ p ∈ groups, (groupFullInfo p.2).labels = p.2.filterMap rowLabel := by
  constructor
  · cases groups with
    | nil => rfl
    | cons p gs =>
      obtain ⟨c, g⟩ := p
      obtain ⟨hgne, hgc⟩ := hwf (c, g) (List.mem_cons_self _ _)
      cases g with
      | nil => exact absurd rfl hgne
      | cons r g2 =>
        have hrc : r.cid = c := hgc r (List.mem_cons_self _ _)
        unfold responseToClientsFullInfo
        simp only [List.map_cons, List.join_cons, List.cons_append, fullInfoGo]
        rw [hrc]
        simp only [List.append_eq]
        rw [fullInfoGo_run g2 c (fun x hx => hgc x (List.mem_cons_of_mem r hx))]
        obtain ⟨hnotin, hnd2⟩ := List.nodup_cons.mp hnd
        have hne2 : ∀ q ∈ gs, q.1 ≠ c := by
          intro q hq heq
          have hmem : q.1 ∈ List.map Prod.fst gs :=
            List.mem_map_of_mem Prod.fst hq
          rw [heq] at hmem
          exact hnotin hmem
        rw [fullInfoGo_groups gs c
          (g2.foldl addLabelRow (addLabelRow (mkFullInfo r) r))
          (fun q hq => hwf q (List.mem_cons_of_mem _ hq)) hne2 hnd2]
        rfl
  · intro p hp
    obtain ⟨c, g⟩ := p
    obtain ⟨hgne, hgc⟩ := hwf (c, g) hp
    cases g with
    | nil => exact absurd rfl hgne
    | cons r g2 =>
      show (g2.foldl addLabelRow (addLabelRow (mkFullInfo r) r)).labels = _
      rw [foldl_addLabelRow_labels, List.filterMap_cons]
      cases h : rowLabel r <;> simp [addLabelRow, h, mkFullInfo]

/-- A result row of client 1 carrying a GRR-owned label. -/
def c2RowA : FullInfoRow :=
  { cid := 1, label_owner := some "GRR", label_name := some "foo" }

/-- A second result row of client 1 carrying an operator label. -/
def c2RowB : FullInfoRow :=
  { cid := 1, label_owner := some "op", label_name := some "bar" }

/-- A result row of client 2 with no label (NULL label columns). -/
def c2RowC : FullInfoRow := { cid := 2 }

/-- Two contiguous client groups for the grouping-consumer scenario. -/
def c2Groups : List (ClientId × List FullInfoRow) :=
  [(1, [c2RowA, c2RowB]), (2, [c2RowC])]

theorem responseToClientsFullInfo_groups_witness :
    ((∀ p ∈ c2Groups, p.2 ≠ [] ∧ ∀ r ∈ p.2, r.cid = p.1) ∧
      (c2Groups.map Prod.fst).Nodup) ∧
    (responseToClientsFullInfo ((c2Groups.map Prod.snd).join)
        = c2Groups.map (fun p => (p.1, groupFullInfo p.2)) ∧
      ∀ p ∈ c2Groups, (groupFullInfo p.2).labels = p.2.filterMap rowLabel) :=
  ⟨⟨by decide, by decide⟩,
    responseToClientsFullInfo_groups c2Groups (by decide) (by decide)⟩
